import Mathlib

/-! Shallow embedding of src/index.tsx, a browser client for an image
generation API.  The DOM surface (gallery, prompt input, model selector,
upload control, preview) is modelled as an explicit state record; the two
asynchronous request flows are modelled as pure functions taking the
outcome of the single external call as an argument and returning the new
state together with the call that was sent, if any. -/

-- --- UPLOAD STORE ---

/-- An uploaded image held by the upload store: base64 payload and media
type.  Mirrors the type of the module variable uploadedImageData. -/
structure UploadedImage where
  data : String
  mimeType : String
  deriving DecidableEq, Repr

-- --- GALLERY MODEL ---

/-- One element of the image gallery: the loading paragraph written by
setLoading, the error paragraph written by displayError, or an img element
appended by one of the flows, carrying its src and alt attributes. -/
inductive GalleryItem where
  | loadingMsg : GalleryItem
  | errorMsg (message : String) : GalleryItem
  | image (src : String) (alt : String) : GalleryItem
  deriving DecidableEq, Repr

-- --- APP STATE ---

/-- The mutable state of the page: the module variable uploadedImageData
plus the DOM fields the script reads or writes. -/
structure AppState where
  uploadedImageData : Option UploadedImage
  promptValue : String
  modelValue : String
  gallery : List GalleryItem
  ariaBusy : Bool
  editingControlsVisible : Bool
  imageUploadValue : String
  imagePreviewSrc : String
  imagePreviewVisible : Bool
  deriving DecidableEq, Repr

-- --- AVAILABLE MODELS ---

/-- The fixed list of selectable model identifiers. -/
def availableModels : List String :=
  [("gemini-2.5-flash-image-preview"),
   ("imagen-4.0-generate-001"),
   ("imagen-4.0-ultra-generate-001"),
   ("imagen-4.0-fast-generate-001"),
   ("imagen-3.0-generate-002")]

-- --- IMAGEN PROMPT ---

/-- The fixed, non user editable prompt used by the generate flow. -/
def imagenPrompt : String :=
  "Editorial wildlife photograph: a sleek black panther standing regally on a reflective salt flat at dusk, wearing a dramatic, sculptural couture gown inspired by organic forms. The landscape is vast and otherworldly but grounded in reality, with subtle shimmering textures and a warm, golden-hour glow. Captured with a cinematic 35mm lens, shallow depth of field, natural shadows, and authentic fur and fabric textures—evoking a high-fashion magazine cover with a surreal, yet believable, atmosphere."

-- --- SDK ENUMS ---

/-- Response modalities requested by the edit flow. -/
inductive Modality where
  | image : Modality
  | text : Modality
  deriving DecidableEq, Repr

/-- Person generation policy values of the SDK enum. -/
inductive PersonGeneration where
  | dontAllow : PersonGeneration
  | allowAdult : PersonGeneration
  | allowAll : PersonGeneration
  deriving DecidableEq, Repr

-- --- STRING TRIM ---

/-- The ECMAScript trim used on the prompt input: removes whitespace from
both ends of the string. -/
def jsTrim (s : String) : String :=
  String.mk (((s.data.dropWhile Char.isWhitespace).reverse.dropWhile Char.isWhitespace).reverse)

-- --- UI HELPERS ---

/-- setLoading: sets aria-busy and replaces the gallery content wholesale,
with the loading paragraph when loading and with nothing when idle. -/
def setLoading (s : AppState) (isLoading : Bool) : AppState :=
  if isLoading then
    { s with ariaBusy := true, gallery := [GalleryItem.loadingMsg] }
  else
    { s with ariaBusy := false, gallery := [] }

/-- displayError: leaves the loading state and replaces the gallery content
with a single error paragraph. -/
def displayError (s : AppState) (message : String) : AppState :=
  let s1 := setLoading s false
  { s1 with gallery := [GalleryItem.errorMsg message] }

/-- appendChild of an img element on the gallery. -/
def appendImage (s : AppState) (src : String) (alt : String) : AppState :=
  { s with gallery := s.gallery ++ [GalleryItem.image src alt] }

-- --- EXTERNAL CALL SHAPES ---

/-- An opaque transport or API failure thrown by the external call. -/
structure ApiError where
  message : String
  deriving DecidableEq, Repr

/-- Inline data of a request part sent by the edit flow. -/
structure ReqInlineData where
  data : String
  mimeType : String
  deriving DecidableEq, Repr

/-- One part of the contents sent by the edit flow: the image part or the
text part. -/
inductive ReqPart where
  | inlineData (d : ReqInlineData) : ReqPart
  | text (t : String) : ReqPart
  deriving DecidableEq, Repr

/-- The request the edit flow sends to generateContent. -/
structure EditCall where
  model : String
  parts : List ReqPart
  responseModalities : List Modality
  deriving DecidableEq, Repr

/-- The request the generate flow sends to generateImages. -/
structure GenerateCall where
  model : String
  prompt : String
  numberOfImages : Nat
  aspectRatio : String
  personGeneration : PersonGeneration
  outputMimeType : String
  includeRaiReason : Bool
  deriving DecidableEq, Repr

/-- Inline data of a response part of the edit flow. -/
structure RespInlineData where
  data : String
  mimeType : String
  deriving DecidableEq, Repr

/-- One response part of the edit flow, with optional inline image data and
optional text.  Models the SDK Part type. -/
structure RespPart where
  inlineData : Option RespInlineData
  text : Option String
  deriving DecidableEq, Repr

/-- The content of a response candidate, with an optional parts list. -/
structure EditContent where
  parts : Option (List RespPart)
  deriving DecidableEq, Repr

/-- A response candidate of the edit flow. -/
structure EditCandidate where
  content : Option EditContent
  deriving DecidableEq, Repr

/-- The generateContent response seen by the edit flow. -/
structure EditResponse where
  candidates : Option (List EditCandidate)
  deriving DecidableEq, Repr

/-- The image payload of one generated image.  Models the SDK Image type. -/
structure ApiImage where
  imageBytes : Option String
  deriving DecidableEq, Repr

/-- One entry of the generateImages response list. -/
structure GeneratedImage where
  image : Option ApiImage
  deriving DecidableEq, Repr

/-- The generateImages response seen by the generate flow. -/
structure GenerateResponse where
  generatedImages : Option (List GeneratedImage)
  deriving DecidableEq, Repr

-- --- EDIT REQUEST FLOW ---

/-- The optional chain response?.candidates?.[0]?.content?.parts: yields the
parts list of the first candidate when every link is present. -/
def extractParts (r : EditResponse) : Option (List RespPart) :=
  match r.candidates with
  | none => none
  | some cs =>
    match cs.head? with
    | none => none
    | some c =>
      match c.content with
      | none => none
      | some ct => ct.parts

/-- The response-part loop of generateEditedImage: a part carrying inline
data is appended to the gallery as an img with the prompt as alt text; a
part carrying only text is logged, not rendered. -/
def renderEditParts (s : AppState) (prompt : String) : List RespPart → AppState
  | [] => s
  | p :: rest =>
    match p.inlineData with
    | some d =>
      renderEditParts
        (appendImage s (("data:") ++ d.mimeType ++ (";base64,") ++ d.data) prompt)
        prompt rest
    | none => renderEditParts s prompt rest

/-- generateEditedImage: validates the upload store and the trimmed prompt,
then submits the edit call and decodes the response.  The second component
records the call sent to the external service, none when the flow returned
before invoking it. -/
def generateEditedImage (s : AppState) (svc : Except ApiError EditResponse) :
    AppState × Option EditCall :=
  match s.uploadedImageData with
  | none => (displayError s ("Please upload an image first."), none)
  | some img =>
    let prompt := jsTrim s.promptValue
    if prompt = "" then
      (displayError s ("Please enter a prompt to describe the edits."), none)
    else
      let s1 := setLoading s true
      let call : EditCall :=
        { model := ("gemini-2.5-flash-image-preview"),
          parts := [ReqPart.inlineData { data := img.data, mimeType := img.mimeType },
                    ReqPart.text prompt],
          responseModalities := [Modality.image, Modality.text] }
      match svc with
      | Except.error _ =>
        (displayError s1 ("Could not edit image. Check the console for details."), some call)
      | Except.ok response =>
        let s2 := setLoading s1 false
        match extractParts response with
        | some parts => (renderEditParts s2 prompt parts, some call)
        | none =>
          (displayError s2 ("No image was generated. The response may have been blocked."),
           some call)

-- --- GENERATE REQUEST FLOW ---

/-- The forEach body of generateImages, with the running index: an entry
whose payload is present and non-empty is appended as an img whose alt text
carries the fixed prompt and the 1-based position; any other entry is
skipped but still advances the index. -/
def renderGenAux (s : AppState) (idx : Nat) : List GeneratedImage → AppState
  | [] => s
  | gi :: rest =>
    match gi.image with
    | some im =>
      match im.imageBytes with
      | some b =>
        if b = "" then renderGenAux s (idx + 1) rest
        else
          renderGenAux
            (appendImage s (("data:image/jpeg;base64,") ++ b)
              (imagenPrompt ++ (" - Image ") ++ toString (idx + 1)))
            (idx + 1) rest
      | none => renderGenAux s (idx + 1) rest
    | none => renderGenAux s (idx + 1) rest

/-- generateImages: submits the fixed prompt with the selected model and a
model-dependent image count, then renders each present image of the
response list.  The second component records the call sent. -/
def generateImages (s : AppState) (svc : Except ApiError GenerateResponse) :
    AppState × Option GenerateCall :=
  let s1 := setLoading s true
  let selectedModel := s.modelValue
  let numberOfImages : Nat := if selectedModel = ("imagen-4.0-ultra-generate-001") then 1 else 3
  let call : GenerateCall :=
    { model := selectedModel,
      prompt := imagenPrompt,
      numberOfImages := numberOfImages,
      aspectRatio := ("1:1"),
      personGeneration := PersonGeneration.allowAdult,
      outputMimeType := ("image/jpeg"),
      includeRaiReason := true }
  match svc with
  | Except.error _ =>
    (displayError s1 ("Could not generate images. Check the console for details."), some call)
  | Except.ok response =>
    let s2 := setLoading s1 false
    match response.generatedImages with
    | some gis => (renderGenAux s2 0 gis, some call)
    | none => (s2, some call)

-- --- MODE CONTROLLER ---

/-- handleModelChange: runs after the selector value changed, clears the
gallery and loading state, and either shows the edit controls and resets
the upload state, or hides them and triggers the generate flow. -/
def handleModelChange (s : AppState) (svc : Except ApiError GenerateResponse) :
    AppState × Option GenerateCall :=
  let selectedModel := s.modelValue
  let s1 := setLoading s false
  let s2 := { s1 with gallery := [] }
  if selectedModel = ("gemini-2.5-flash-image-preview") then
    ({ s2 with
        editingControlsVisible := true,
        uploadedImageData := none,
        imageUploadValue := "",
        imagePreviewSrc := ("#"),
        imagePreviewVisible := false,
        promptValue := "" }, none)
  else
    generateImages { s2 with editingControlsVisible := false } svc

-- --- DERIVED RENDERERS (canonical forms used in theorem statements) ---

/-- What one response part of the edit flow contributes to the gallery:
an img with the data url and the prompt as alt when inline data is present,
nothing otherwise. -/
def editPartRender (prompt : String) (p : RespPart) : Option GalleryItem :=
  p.inlineData.map
    (fun d => GalleryItem.image (("data:") ++ d.mimeType ++ (";base64,") ++ d.data) prompt)

/-- What one indexed entry of the generate response contributes to the
gallery: an img with the jpeg data url and the 1-based position in the alt
text when a non-empty payload is present, nothing otherwise. -/
def genEntryRender (p : Nat × GeneratedImage) : Option GalleryItem :=
  match p.2.image with
  | some im =>
    match im.imageBytes with
    | some b =>
      if b = "" then none
      else
        some (GalleryItem.image (("data:image/jpeg;base64,") ++ b)
          (imagenPrompt ++ (" - Image ") ++ toString (p.1 + 1)))
    | none => none
  | none => none

-- --- SAMPLE INPUTS ---

/-- Sample state: no upload, whitespace-only prompt, a generation model. -/
def sNoUpload : AppState :=
  { uploadedImageData := none,
    promptValue := ("   "),
    modelValue := ("imagen-4.0-generate-001"),
    gallery := [],
    ariaBusy := false,
    editingControlsVisible := false,
    imageUploadValue := "",
    imagePreviewSrc := ("#"),
    imagePreviewVisible := false }

/-- A sample uploaded image. -/
def sampleImage : UploadedImage := { data := ("QUJD"), mimeType := ("image/png") }

/-- Sample state: upload present, whitespace-only prompt. -/
def sUploadBlankPrompt : AppState := { sNoUpload with uploadedImageData := some sampleImage }

/-- Sample state: upload present, non-blank prompt. -/
def sReady : AppState := { sUploadBlankPrompt with promptValue := ("add a red hat") }

/-- Sample state: editing model selected, upload and prompt present. -/
def sEditModel : AppState := { sReady with modelValue := ("gemini-2.5-flash-image-preview") }

/-- A sample transport failure. -/
def boom : ApiError := { message := ("boom") }

/-- A response whose first candidate carries a present but empty parts
list. -/
def emptyPartsResponse : EditResponse :=
  { candidates := some [{ content := some { parts := some [] } }] }

/-- A response with no candidates at all. -/
def noCandidatesResponse : EditResponse := { candidates := none }

/-- A sample parts list: one inline image part followed by one text part. -/
def twoParts : List RespPart :=
  [{ inlineData := some { data := ("QUFB"), mimeType := ("image/png") }, text := none },
   { inlineData := none, text := some ("done") }]

/-- An edit response carrying the sample parts list. -/
def twoPartsResponse : EditResponse :=
  { candidates := some [{ content := some { parts := some twoParts } }] }

/-- A generate response entry with no payload. -/
def skipEntry : GeneratedImage := { image := none }

/-- A generate response entry with payload b. -/
def imgEntry (b : String) : GeneratedImage := { image := some { imageBytes := some b } }

/-- A generated image list whose first and third entries lack a payload. -/
def skipList : List GeneratedImage :=
  [skipEntry, imgEntry ("QUFB"), skipEntry, imgEntry ("QkJC")]

/-- A generate response with such a list. -/
def skipResponse : GenerateResponse := { generatedImages := some skipList }

/-- A generate response with an absent image list. -/
def emptyGenResponse : GenerateResponse := { generatedImages := none }

/-- The edit call the flow sends from the sample ready state. -/
def sampleEditCall : EditCall :=
  { model := ("gemini-2.5-flash-image-preview"),
    parts := [ReqPart.inlineData { data := ("QUJD"), mimeType := ("image/png") },
              ReqPart.text ("add a red hat")],
    responseModalities := [Modality.image, Modality.text] }

-- --- HELPER LEMMAS ---

/-- The part loop appends exactly the rendered image parts, in order. -/
theorem renderEditParts_gallery (prompt : String) (ps : List RespPart) (s : AppState) :
    (renderEditParts s prompt ps).gallery
      = s.gallery ++ ps.filterMap (editPartRender prompt) := by
  induction ps generalizing s with
  | nil => simp [renderEditParts]
  | cons p rest ih =>
    cases h : p.inlineData with
    | none => simp [renderEditParts, h, ih, editPartRender]
    | some d => simp [renderEditParts, h, ih, editPartRender, appendImage]

/-- The rendered image parts are as many as the parts with inline data. -/
theorem length_filterMap_editPartRender (prompt : String) (ps : List RespPart) :
    (ps.filterMap (editPartRender prompt)).length
      = ps.countP (fun p => p.inlineData.isSome) := by
  induction ps with
  | nil => simp
  | cons p rest ih =>
    cases h : p.inlineData <;> simp [editPartRender, h, ih, List.countP_cons]

/-- The forEach loop appends exactly the rendered entries of the indexed
list, in order. -/
theorem renderGenAux_gallery (gis : List GeneratedImage) :
    ∀ (s : AppState) (idx : Nat),
      (renderGenAux s idx gis).gallery
        = s.gallery ++ (List.enumFrom idx gis).filterMap genEntryRender := by
  induction gis with
  | nil => intro s idx; simp [renderGenAux]
  | cons gi rest ih =>
    intro s idx
    cases h : gi.image with
    | none => simp [renderGenAux, h, ih, genEntryRender, List.enumFrom]
    | some im =>
      cases hb : im.imageBytes with
      | none => simp [renderGenAux, h, hb, ih, genEntryRender, List.enumFrom]
      | some b =>
        by_cases hbe : b = ""
        · simp [renderGenAux, h, hb, hbe, ih, genEntryRender, List.enumFrom]
        · simp [renderGenAux, h, hb, hbe, ih, genEntryRender, appendImage, List.enumFrom]

/-- The forEach loop never touches the edit controls. -/
theorem renderGenAux_controls (gis : List GeneratedImage) :
    ∀ (s : AppState) (idx : Nat),
      (renderGenAux s idx gis).editingControlsVisible = s.editingControlsVisible := by
  induction gis with
  | nil => intro s idx; simp [renderGenAux]
  | cons gi rest ih =>
    intro s idx
    cases h : gi.image with
    | none => simpa [renderGenAux, h] using ih s (idx + 1)
    | some im =>
      cases hb : im.imageBytes with
      | none => simpa [renderGenAux, h, hb] using ih s (idx + 1)
      | some b =>
        by_cases hbe : b = ""
        · simpa [renderGenAux, h, hb, hbe] using ih s (idx + 1)
        · simpa [renderGenAux, h, hb, hbe, appendImage] using ih _ (idx + 1)

/-- Every invocation of the generate flow sends exactly this call. -/
theorem generateImages_snd (s : AppState) (svc : Except ApiError GenerateResponse) :
    (generateImages s svc).2 = some
      { model := s.modelValue,
        prompt := imagenPrompt,
        numberOfImages := if s.modelValue = ("imagen-4.0-ultra-generate-001") then 1 else 3,
        aspectRatio := ("1:1"),
        personGeneration := PersonGeneration.allowAdult,
        outputMimeType := ("image/jpeg"),
        includeRaiReason := true } := by
  cases svc with
  | error e => simp [generateImages]
  | ok r => cases h : r.generatedImages <;> simp [generateImages, h]

/-- The generate flow never touches the edit controls. -/
theorem generateImages_controls (s : AppState) (svc : Except ApiError GenerateResponse) :
    (generateImages s svc).1.editingControlsVisible = s.editingControlsVisible := by
  cases svc with
  | error e => simp [generateImages, displayError, setLoading]
  | ok r =>
    cases h : r.generatedImages with
    | none => simp [generateImages, h, setLoading]
    | some gis => simp [generateImages, h, setLoading, renderGenAux_controls]

/-- List positions transfer into the enumerated list. -/
theorem get?_mem_enumFrom {α : Type} :
    ∀ (l : List α) (n i : Nat) (a : α),
      l.get? i = some a → (n + i, a) ∈ List.enumFrom n l := by
  intro l
  induction l with
  | nil => intro n i a h; simp [List.get?] at h
  | cons x xs ih =>
    intro n i a h
    cases i with
    | zero =>
      simp [List.get?] at h
      subst h
      simp [List.enumFrom]
    | succ j =>
      have h2 := ih (n + 1) j a (by simpa [List.get?] using h)
      have he : n + (j + 1) = (n + 1) + j := by omega
      rw [he]
      show ((n + 1) + j, a) ∈ (n, x) :: List.enumFrom (n + 1) xs
      exact List.mem_cons_of_mem _ h2

-- --- CLAIM THEOREMS ---

/-- Claim C1: the edit flow checks its preconditions in order with
short-circuiting: with no uploaded image it reports the upload error and
sends no call, whatever the prompt holds; with an upload present but a
prompt that trims to empty it reports the prompt error and sends no call;
and the error reporting leaves the upload store and the prompt field
unchanged. -/
theorem c1_edit_preconditions (s : AppState) (svc : Except ApiError EditResponse) :
    (s.uploadedImageData = none →
      generateEditedImage s svc
        = (displayError s ("Please upload an image first."), none)) ∧
    (s.uploadedImageData ≠ none → jsTrim s.promptValue = "" →
      generateEditedImage s svc
        = (displayError s ("Please enter a prompt to describe the edits."), none)) ∧
    (∀ m : String,
      (displayError s m).uploadedImageData = s.uploadedImageData ∧
      (displayError s m).promptValue = s.promptValue) := by
  refine ⟨?_, ?_, ?_⟩
  · intro h
    simp [generateEditedImage, h]
  · intro h hp
    rcases hu : s.uploadedImageData with _ | img
    · exact absurd hu h
    · simp [generateEditedImage, hu, hp]
  · intro m
    simp [displayError, setLoading]

/-- Concrete instance of C1: the sample states with a missing upload and
with a whitespace-only prompt. -/
theorem c1_edit_preconditions_witness :
    generateEditedImage sNoUpload (Except.error boom)
      = (displayError sNoUpload ("Please upload an image first."), none) ∧
    generateEditedImage sUploadBlankPrompt (Except.error boom)
      = (displayError sUploadBlankPrompt ("Please enter a prompt to describe the edits."), none) :=
  ⟨(c1_edit_preconditions sNoUpload (Except.error boom)).1 (by decide),
   (c1_edit_preconditions sUploadBlankPrompt (Except.error boom)).2.1 (by decide) (by decide)⟩

/-- Claim C2: selecting any non-editing model hides the edit controls and
triggers exactly one generate call whose model is the selected identifier
and whose image count is 1 for the ultra identifier and 3 otherwise. -/
theorem c2_generation_mode_triggers_generate (s : AppState)
    (svc : Except ApiError GenerateResponse)
    (h : s.modelValue ≠ ("gemini-2.5-flash-image-preview")) :
    (handleModelChange s svc).1.editingControlsVisible = false ∧
    ∃ c : GenerateCall, (handleModelChange s svc).2 = some c ∧
      c.model = s.modelValue ∧
      c.numberOfImages
        = (if s.modelValue = ("imagen-4.0-ultra-generate-001") then 1 else 3) := by
  have hmc : handleModelChange s svc
      = generateImages
          { (setLoading s false) with gallery := [], editingControlsVisible := false } svc := by
    simp [handleModelChange, h]
  constructor
  · rw [hmc, generateImages_controls]
  · rw [hmc, generateImages_snd]
    exact ⟨_, rfl, by simp [setLoading], by simp [setLoading]⟩

/-- Concrete instance of C2: the sample state with a generation model. -/
theorem c2_generation_mode_witness :
    (handleModelChange sNoUpload (Except.error boom)).1.editingControlsVisible = false ∧
    ∃ c : GenerateCall, (handleModelChange sNoUpload (Except.error boom)).2 = some c ∧
      c.model = sNoUpload.modelValue ∧
      c.numberOfImages
        = (if sNoUpload.modelValue = ("imagen-4.0-ultra-generate-001") then 1 else 3) :=
  c2_generation_mode_triggers_generate sNoUpload (Except.error boom) (by decide)

/-- Claim C3: a successful response renders exactly its image parts, in
response order, with the expected alt text: in the edit flow each rendered
image carries the trimmed user prompt as alt, as many as there are inline
image parts; in the generate flow each present entry is rendered in order
with the fixed prompt and its 1-based position as alt. -/
theorem c3_renders_all_image_parts (s : AppState) (img : UploadedImage)
    (r : EditResponse) (ps : List RespPart) (g : GenerateResponse)
    (gis : List GeneratedImage)
    (h1 : s.uploadedImageData = some img) (h2 : ¬ jsTrim s.promptValue = "")
    (h3 : extractParts r = some ps) (h4 : g.generatedImages = some gis) :
    (generateEditedImage s (Except.ok r)).1.gallery
      = ps.filterMap (editPartRender (jsTrim s.promptValue)) ∧
    (ps.filterMap (editPartRender (jsTrim s.promptValue))).length
      = ps.countP (fun p => p.inlineData.isSome) ∧
    (generateImages s (Except.ok g)).1.gallery
      = (List.enum gis).filterMap genEntryRender := by
  refine ⟨?_, length_filterMap_editPartRender _ ps, ?_⟩
  · simp [generateEditedImage, h1, h2, h3, renderEditParts_gallery, setLoading]
  · simp [generateImages, h4, renderGenAux_gallery, setLoading, List.enum]

/-- Concrete instance of C3: a two-part edit response and a four-entry
generate response. -/
theorem c3_renders_all_image_parts_witness :
    (generateEditedImage sReady (Except.ok twoPartsResponse)).1.gallery
      = twoParts.filterMap (editPartRender (jsTrim sReady.promptValue)) ∧
    (generateImages sReady (Except.ok skipResponse)).1.gallery
      = (List.enum skipList).filterMap genEntryRender :=
  ⟨(c3_renders_all_image_parts sReady sampleImage twoPartsResponse twoParts
      skipResponse skipList (by decide) (by decide) (by decide) (by decide)).1,
   (c3_renders_all_image_parts sReady sampleImage twoPartsResponse twoParts
      skipResponse skipList (by decide) (by decide) (by decide) (by decide)).2.2⟩

/-- Claim C4: when the external call throws, each flow surfaces exactly one
generic error message as the whole gallery content and ends non-loading,
whatever response parts would otherwise have existed. -/
theorem c4_transport_failure (s : AppState) (img : UploadedImage) (e f : ApiError)
    (h1 : s.uploadedImageData = some img) (h2 : ¬ jsTrim s.promptValue = "") :
    (generateEditedImage s (Except.error e)).1.gallery
      = [GalleryItem.errorMsg ("Could not edit image. Check the console for details.")] ∧
    (generateEditedImage s (Except.error e)).1.ariaBusy = false ∧
    (generateImages s (Except.error f)).1.gallery
      = [GalleryItem.errorMsg ("Could not generate images. Check the console for details.")] ∧
    (generateImages s (Except.error f)).1.ariaBusy = false := by
  refine ⟨?_, ?_, ?_, ?_⟩ <;>
    simp [generateEditedImage, generateImages, h1, h2, displayError, setLoading]

/-- Concrete instance of C4: the sample ready state and a failing call. -/
theorem c4_transport_failure_witness :
    (generateEditedImage sReady (Except.error boom)).1.gallery
      = [GalleryItem.errorMsg ("Could not edit image. Check the console for details.")] ∧
    (generateEditedImage sReady (Except.error boom)).1.ariaBusy = false ∧
    (generateImages sReady (Except.error boom)).1.gallery
      = [GalleryItem.errorMsg ("Could not generate images. Check the console for details.")] ∧
    (generateImages sReady (Except.error boom)).1.ariaBusy = false :=
  c4_transport_failure sReady sampleImage boom boom (by decide) (by decide)

/-- Claim C5: switching the selector to the editing model clears the upload
store, the prompt field, the file input and the preview, shows the edit
controls, and triggers no generate call. -/
theorem c5_switch_to_edit_clears_state (s : AppState)
    (svc : Except ApiError GenerateResponse)
    (h : s.modelValue = ("gemini-2.5-flash-image-preview")) :
    (handleModelChange s svc).1.uploadedImageData = none ∧
    (handleModelChange s svc).1.promptValue = "" ∧
    (handleModelChange s svc).1.imageUploadValue = "" ∧
    (handleModelChange s svc).1.imagePreviewSrc = ("#") ∧
    (handleModelChange s svc).1.imagePreviewVisible = false ∧
    (handleModelChange s svc).1.editingControlsVisible = true ∧
    (handleModelChange s svc).2 = none := by
  refine ⟨?_, ?_, ?_, ?_, ?_, ?_, ?_⟩ <;> simp [handleModelChange, h, setLoading]

/-- Concrete instance of C5: the sample state holding an upload and a
prompt, switched to the editing model. -/
theorem c5_switch_to_edit_witness :
    (handleModelChange sEditModel (Except.error boom)).1.uploadedImageData = none ∧
    (handleModelChange sEditModel (Except.error boom)).1.promptValue = "" ∧
    (handleModelChange sEditModel (Except.error boom)).1.imageUploadValue = "" ∧
    (handleModelChange sEditModel (Except.error boom)).1.imagePreviewSrc = ("#") ∧
    (handleModelChange sEditModel (Except.error boom)).1.imagePreviewVisible = false ∧
    (handleModelChange sEditModel (Except.error boom)).1.editingControlsVisible = true ∧
    (handleModelChange sEditModel (Except.error boom)).2 = none :=
  c5_switch_to_edit_clears_state sEditModel (Except.error boom) (by decide)

/-- Claim C6 counterexample: a response whose first candidate carries a
present but empty parts list contains no content parts at all, yet the
edit flow reports no error: the gallery ends empty, without the blocked
message, contradicting the claim that the error is reported. -/
theorem c6_counterexample :
    extractParts emptyPartsResponse = some [] ∧
    (generateEditedImage sReady (Except.ok emptyPartsResponse)).1.gallery = [] ∧
    (generateEditedImage sReady (Except.ok emptyPartsResponse)).1.gallery
      ≠ [GalleryItem.errorMsg ("No image was generated. The response may have been blocked.")] ∧
    (generateEditedImage sReady (Except.ok emptyPartsResponse)).1.ariaBusy = false := by
  refine ⟨by decide, by decide, by decide, by decide⟩

/-- Claim C6 as amended: for every edit-flow response whose candidate
content parts list is absent, meaning the optional chain down to the parts
of the first candidate yields nothing, the flow renders no image, reports
the blocked-response error and ends non-loading. -/
theorem c6_absent_parts_reports_blocked (s : AppState) (img : UploadedImage)
    (r : EditResponse)
    (h1 : s.uploadedImageData = some img) (h2 : ¬ jsTrim s.promptValue = "")
    (h3 : extractParts r = none) :
    (generateEditedImage s (Except.ok r)).1.gallery
      = [GalleryItem.errorMsg ("No image was generated. The response may have been blocked.")] ∧
    (generateEditedImage s (Except.ok r)).1.ariaBusy = false := by
  constructor <;> simp [generateEditedImage, h1, h2, h3, displayError, setLoading]

/-- Concrete instance of the amended C6: a response with no candidates. -/
theorem c6_absent_parts_witness :
    (generateEditedImage sReady (Except.ok noCandidatesResponse)).1.gallery
      = [GalleryItem.errorMsg ("No image was generated. The response may have been blocked.")] ∧
    (generateEditedImage sReady (Except.ok noCandidatesResponse)).1.ariaBusy = false :=
  c6_absent_parts_reports_blocked sReady sampleImage noCandidatesResponse
    (by decide) (by decide) (by decide)

/-- Claim C7: a generate response whose image list is absent or empty
renders nothing, reports no error, and ends non-loading: the gallery ends
exactly empty. -/
theorem c7_empty_generate_list_renders_nothing (s : AppState) (r : GenerateResponse)
    (h : r.generatedImages = none ∨ r.generatedImages = some []) :
    (generateImages s (Except.ok r)).1.gallery = [] ∧
    (generateImages s (Except.ok r)).1.ariaBusy = false := by
  rcases h with h | h <;> constructor <;>
    simp [generateImages, h, setLoading, renderGenAux]

/-- Concrete instance of C7: a response with an absent image list. -/
theorem c7_empty_generate_list_witness :
    (generateImages sNoUpload (Except.ok emptyGenResponse)).1.gallery = [] ∧
    (generateImages sNoUpload (Except.ok emptyGenResponse)).1.ariaBusy = false :=
  c7_empty_generate_list_renders_nothing sNoUpload emptyGenResponse (Or.inl (by decide))

/-- Claim C8: every generate call carries exactly the fixed prompt, the
computed count, the 1:1 aspect ratio, the allow-adult person policy, jpeg
output and the safety-filter-reason flag; only the model identifier varies
with user input. -/
theorem c8_generate_call_options (s : AppState) (svc : Except ApiError GenerateResponse) :
    (generateImages s svc).2 = some
      { model := s.modelValue,
        prompt := imagenPrompt,
        numberOfImages := if s.modelValue = ("imagen-4.0-ultra-generate-001") then 1 else 3,
        aspectRatio := ("1:1"),
        personGeneration := PersonGeneration.allowAdult,
        outputMimeType := ("image/jpeg"),
        includeRaiReason := true } :=
  generateImages_snd s svc

/-- Claim C9: whenever the edit flow reaches the external call, the model
sent is the hard-coded editing identifier, independent of the selector. -/
theorem c9_edit_call_model_hardcoded (s : AppState) (svc : Except ApiError EditResponse)
    (c : EditCall) (h : (generateEditedImage s svc).2 = some c) :
    c.model = ("gemini-2.5-flash-image-preview") := by
  rcases hu : s.uploadedImageData with _ | img
  · rw [show (generateEditedImage s svc).2 = none by simp [generateEditedImage, hu]] at h
    cases h
  · by_cases hp : jsTrim s.promptValue = ""
    · rw [show (generateEditedImage s svc).2 = none by simp [generateEditedImage, hu, hp]] at h
      cases h
    · have hsnd : ∃ c2 : EditCall, (generateEditedImage s svc).2 = some c2 ∧
          c2.model = ("gemini-2.5-flash-image-preview") := by
        refine ⟨{ model := ("gemini-2.5-flash-image-preview"),
                  parts := [ReqPart.inlineData { data := img.data, mimeType := img.mimeType },
                            ReqPart.text (jsTrim s.promptValue)],
                  responseModalities := [Modality.image, Modality.text] }, ?_, rfl⟩
        cases svc with
        | error e => simp [generateEditedImage, hu, hp]
        | ok r =>
          rcases hx : extractParts r with _ | ps
          · simp [generateEditedImage, hu, hp, hx]
          · simp [generateEditedImage, hu, hp, hx]
      obtain ⟨c2, hc2, hm⟩ := hsnd
      have hcc : some c2 = some c := hc2.symm.trans h
      injection hcc with hcc
      exact hcc ▸ hm

/-- Concrete instance of C9: the call sent from the sample ready state. -/
theorem c9_edit_call_model_witness :
    sampleEditCall.model = ("gemini-2.5-flash-image-preview") :=
  c9_edit_call_model_hardcoded sReady (Except.error boom) sampleEditCall (by decide)

/-- Claim C10: the 1-based position in a generate-flow alt text is the
index of the entry within the full response list, so skipped entries still
consume a position and rendered positions can be non-consecutive, as the
concrete list with absent payloads at positions 1 and 3 shows. -/
theorem c10_alt_uses_full_list_index (s : AppState) (r : GenerateResponse)
    (gis : List GeneratedImage) (h : r.generatedImages = some gis) :
    (∀ (i : Nat) (gi : GeneratedImage) (b : String),
      gis.get? i = some gi → gi.image = some { imageBytes := some b } → ¬ b = "" →
      GalleryItem.image (("data:image/jpeg;base64,") ++ b)
          (imagenPrompt ++ (" - Image ") ++ toString (i + 1))
        ∈ (generateImages s (Except.ok r)).1.gallery) ∧
    (generateImages s (Except.ok skipResponse)).1.gallery
      = [GalleryItem.image (("data:image/jpeg;base64,") ++ ("QUFB"))
           (imagenPrompt ++ (" - Image ") ++ toString (1 + 1)),
         GalleryItem.image (("data:image/jpeg;base64,") ++ ("QkJC"))
           (imagenPrompt ++ (" - Image ") ++ toString (3 + 1))] := by
  constructor
  · intro i gi b hget hib hbe
    have hg : (generateImages s (Except.ok r)).1.gallery
        = (List.enumFrom 0 gis).filterMap genEntryRender := by
      simp [generateImages, h, renderGenAux_gallery, setLoading, List.enum]
    rw [hg]
    apply List.mem_filterMap.mpr
    refine ⟨(i, gi), ?_, ?_⟩
    · simpa using get?_mem_enumFrom gis 0 i gi hget
    · simp [genEntryRender, hib, hbe]
  · simp [generateImages, skipResponse, skipList, skipEntry, imgEntry,
      renderGenAux, setLoading, appendImage]

/-- Concrete instance of C10: the second entry of the sample list is
rendered with position 2 although it is the first image rendered. -/
theorem c10_alt_uses_full_list_index_witness :
    GalleryItem.image (("data:image/jpeg;base64,") ++ ("QUFB"))
        (imagenPrompt ++ (" - Image ") ++ toString (1 + 1))
      ∈ (generateImages sNoUpload (Except.ok skipResponse)).1.gallery :=
  (c10_alt_uses_full_list_index sNoUpload skipResponse skipList (by decide)).1
    1 (imgEntry ("QUFB")) ("QUFB") (by decide) (by decide) (by decide)
